import Mathlib

/-!
Shallow embedding of the booking core of the detailing-bot repository
(src/utils/validators.py, src/core/models.py, src/services/db/database_manager.py,
src/services/db/queries.py, src/services/analytics/analytics.py).

Modelling conventions:
* Python `datetime` values are modelled as natural numbers of seconds since an
  epoch that falls on a midnight; `timedelta(hours=1)` is 3600, a day is 86400.
  SQLite `date(x)` (the calendar date of a timestamp) is modelled as the day
  index `t / 86400`, and `datetime.hour` as `t % 86400 / 3600`.
* Python `Decimal` values are modelled by their `as_tuple()` content: a signed
  integer mantissa and an integer exponent, with rational value
  `mantissa * 10 ^ exponent`.  A string that does not parse to a finite decimal
  is modelled as `none` (the source rejects non-finite parses through its bare
  `except:` branches as well, so both map to the same observable result).
* Python regular-expression character classes are modelled over the character
  sets the source uses (ASCII letters/digits, the Cyrillic block, ASCII
  whitespace); `re.match(r'^[...]+$', s)` holds iff `s` is nonempty and all its
  characters are in the class.
* Database rows are lists of `Val` cells; `from_db` classmethods read cells by
  index exactly as the source indexes its tuples.  SQL `SELECT ... WHERE` is a
  list filter, `JOIN services ON a.service_id = s.id` is a lookup of the unique
  service with that primary key, and `UPDATE ... WHERE id = ?` is a pointwise
  map.  `ORDER BY` clauses are omitted: every property stated below is
  invariant under permutation of the returned rows.
-/

namespace DetailingBot

/-- Seconds in a day; the epoch of the time model is midnight-aligned. -/
def secondsPerDay : Nat := 86400

/-- Calendar-date index of a timestamp, the model of SQLite `date(t)`. -/
def dayOf (t : Nat) : Nat := t / secondsPerDay

/-- Hour-of-day of a timestamp, the model of Python `t.hour`. -/
def hourOf (t : Nat) : Nat := t % secondsPerDay / 3600

/-- ASCII whitespace, the model of Python `\s` / `str.split()` separators. -/
def isPySpace (c : Char) : Bool :=
  c == ' ' || c == '\t' || c == '\n' || c == '\r' || c == '\x0b' || c == '\x0c'

/-- Characters of the Cyrillic class `а-яА-ЯёЁ` used by the validators. -/
def isCyrillic (c : Char) : Bool :=
  (0x430 ≤ c.toNat && c.toNat ≤ 0x44F) || (0x410 ≤ c.toNat && c.toNat ≤ 0x42F)
    || c == 'ё' || c == 'Ё'

/-- Model of `re.match(r'^[class]+$', s)`: nonempty and every char allowed. -/
def regexClassMatch (allowed : Char → Bool) (s : String) : Bool :=
  !s.data.isEmpty && s.data.all allowed

/-- Single-pass splitter behind `pySplit`: `acc` holds the reversed current
word. -/
def pySplitAux : List Char → List Char → List (List Char)
  | [], acc => if acc.isEmpty then [] else [acc.reverse]
  | c :: cs, acc =>
    if isPySpace c then
      if acc.isEmpty then pySplitAux cs [] else acc.reverse :: pySplitAux cs []
    else pySplitAux cs (c :: acc)

/-- Model of Python `str.split()`: the maximal nonempty runs of non-whitespace
characters, in order. -/
def pySplit (s : String) : List String :=
  (pySplitAux s.data []).map (fun cs => ⟨cs⟩)

/-- Model of `' '.join(s.split())`: collapse internal whitespace runs. -/
def pyCollapse (s : String) : String :=
  String.intercalate " " (pySplit s)

/-- Model of Python `str.strip()`: drop whitespace at both ends. -/
def pyStrip (s : String) : String :=
  ⟨((s.data.dropWhile isPySpace).reverse.dropWhile isPySpace).reverse⟩

/-- `validate_phone` (src/utils/validators.py:16): drop `[\s\-]`, then require
`^(?:\+7|8)\d{10}$`. -/
def validate_phone (phone : String) : Bool × Option String :=
  let cs := phone.data.filter (fun c => !(isPySpace c || c == '-'))
  let shapeOk :=
    match cs with
    | '+' :: '7' :: rest => rest.length == 10 && rest.all Char.isDigit
    | '8' :: rest => rest.length == 10 && rest.all Char.isDigit
    | _ => false
  if shapeOk then (true, none)
  else (false, some "Неверный формат номера. Используйте +7XXXXXXXXXX или 8XXXXXXXXXX")

/-- Character class `[а-яА-ЯёЁa-zA-Z\-]` of `validate_name`. -/
def nameChar (c : Char) : Bool := isCyrillic c || c.isAlpha || c == '-'

/-- The per-word loop of `validate_name`: first offending word decides. -/
def nameLoop : List String → Bool × Option String
  | [] => (true, none)
  | p :: rest =>
    if p.length < 2 then (false, some ("Слишком короткое слово: " ++ p))
    else if !regexClassMatch nameChar p then
      (false, some ("Недопустимые символы в слове: " ++ p))
    else nameLoop rest

/-- `validate_name` (src/utils/validators.py:35): at least two
whitespace-separated words, each of length at least 2 over letters/hyphen. -/
def validate_name (name : String) : Bool × Option String :=
  let parts := pySplit name
  if parts.length < 2 then (false, some "Введите фамилию и имя")
  else nameLoop parts

/-- Character class `[а-яА-ЯёЁa-zA-Z0-9\s\-\.]` of `validate_car_info`. -/
def carChar (c : Char) : Bool :=
  isCyrillic c || c.isAlpha || c.isDigit || isPySpace c || c == '-' || c == '.'

/-- `validate_car_info` (src/utils/validators.py:60): collapse whitespace, then
length at least 4 and restricted character set (the source has no upper
bound even though its own test feeds a 101-character string). -/
def validate_car_info (car : String) : Bool × Option String :=
  let car := pyCollapse car
  if car.length < 4 then (false, some "Слишком короткое описание автомобиля")
  else if !regexClassMatch carChar car then
    (false, some "Недопустимые символы в описании автомобиля")
  else (true, none)

/-- `validate_appointment_time` (src/utils/validators.py:79), with the call
`datetime.now()` made an explicit `now` argument. -/
def validate_appointment_time (now time : Nat) : Bool × Option String :=
  if time ≤ now then (false, some "Время записи должно быть в будущем")
  else if time < now + 3600 then (false, some "Запись возможна минимум за 1 час")
  else if now + 90 * secondsPerDay < time then
    (false, some "Запись возможна максимум за 3 месяца")
  else if hourOf time < 9 || 20 ≤ hourOf time then
    (false, some "Запись возможна только с 9:00 до 20:00")
  else (true, none)

/-- A parsed finite `Decimal` as `as_tuple()` reports it: the signed mantissa
and the exponent; the numeric value is `mantissa * 10 ^ exponent`. -/
structure Dec where
  mantissa : Int
  exponent : Int
  deriving DecidableEq, Repr

/-- Numeric value of a parsed decimal. -/
def Dec.val (d : Dec) : ℚ := (d.mantissa : ℚ) * 10 ^ d.exponent

/-- `validate_amount` (src/utils/validators.py:108): positive, at most two
fractional digits (`abs(as_tuple().exponent) <= 2`); a failed parse is the
`except` branch. -/
def validate_amount (amount : Option Dec) : Bool × Option String :=
  match amount with
  | none => (false, some "Неверный формат суммы")
  | some d =>
    if d.val ≤ 0 then (false, some "Сумма должна быть больше нуля")
    else if 2 < |d.exponent| then (false, some "Максимум 2 знака после запятой")
    else (true, none)

/-- Character class `[а-яА-ЯёЁa-zA-Z0-9\s\.,!?\-]` of `validate_comment`. -/
def commentChar (c : Char) : Bool :=
  isCyrillic c || c.isAlpha || c.isDigit || isPySpace c
    || c == '.' || c == ',' || c == '!' || c == '?' || c == '-'

/-- `validate_comment` (src/utils/validators.py:132): `None` is accepted;
otherwise strip, length at most 500, and the restricted class must match
(which requires at least one character). -/
def validate_comment (comment : Option String) : Bool × Option String :=
  match comment with
  | none => (true, none)
  | some s =>
    let s := pyStrip s
    if 500 < s.length then
      (false, some "Комментарий слишком длинный (максимум 500 символов)")
    else if !regexClassMatch commentChar s then
      (false, some "Недопустимые символы в комментарии")
    else (true, none)

/-- The five appointment statuses of `AppointmentStatus` (src/core/models.py:8). -/
inductive AppointmentStatus where
  | pending
  | confirmed
  | completed
  | cancelled
  | rescheduled
  deriving DecidableEq, Repr

/-- Model of the enum constructor `AppointmentStatus(s)`: `none` is the
`ValueError` branch. -/
def parseStatus : String → Option AppointmentStatus
  | "pending" => some .pending
  | "confirmed" => some .confirmed
  | "completed" => some .completed
  | "cancelled" => some .cancelled
  | "rescheduled" => some .rescheduled
  | _ => none

/-- The two transaction types of `TransactionType` (src/core/models.py:17). -/
inductive TransactionType where
  | income
  | expense
  deriving DecidableEq, Repr

/-- Model of the enum constructor `TransactionType(s)`. -/
def parseTransactionType : String → Option TransactionType
  | "income" => some .income
  | "expense" => some .expense
  | _ => none

/-- `validate_status` (src/utils/validators.py:154). -/
def validate_status (status : String) : Bool × Option String :=
  match parseStatus status with
  | some _ => (true, none)
  | none =>
    (false, some "Неверный статус. Допустимые значения: pending, confirmed, completed, cancelled, rescheduled")

/-- `validate_transaction_type` (src/utils/validators.py:163). -/
def validate_transaction_type (t : String) : Bool × Option String :=
  match parseTransactionType t with
  | some _ => (true, none)
  | none => (false, some "Неверный тип транзакции. Допустимые значения: income, expense")

/-- Character class `[а-яА-ЯёЁa-zA-Z0-9\s\-]` of `validate_category`. -/
def categoryChar (c : Char) : Bool :=
  isCyrillic c || c.isAlpha || c.isDigit || isPySpace c || c == '-'

/-- `validate_category` (src/utils/validators.py:172). -/
def validate_category (category : String) : Bool × Option String :=
  if category.length < 2 then (false, some "Категория слишком короткая")
  else if 50 < category.length then (false, some "Категория слишком длинная")
  else if !regexClassMatch categoryChar category then
    (false, some "Недопустимые символы в названии категории")
  else (true, none)

/-- `validate_service_name` (src/utils/validators.py:189). -/
def validate_service_name (name : String) : Bool × Option String :=
  let name := pyStrip name
  if name.length < 3 then
    (false, some "Название услуги должно содержать минимум 3 символа")
  else if 100 < name.length then
    (false, some "Название услуги не должно превышать 100 символов")
  else (true, none)

/-- `validate_service_description` (src/utils/validators.py:209). -/
def validate_service_description (description : String) : Bool × Option String :=
  let description := pyStrip description
  if description.length < 10 then
    (false, some "Описание услуги должно содержать минимум 10 символов")
  else if 1000 < description.length then
    (false, some "Описание услуги не должно превышать 1000 символов")
  else (true, none)

/-- `validate_service_price` (src/utils/validators.py:229): positive and at
most 1 000 000.  Unlike `validate_amount`, the source performs no check on
the number of fractional digits. -/
def validate_service_price (price : Option Dec) : Bool × Option String :=
  match price with
  | none => (false, some "Неверный формат цены")
  | some d =>
    if d.val ≤ 0 then (false, some "Цена должна быть больше нуля")
    else if 1000000 < d.val then (false, some "Цена не может быть больше 1 000 000")
    else (true, none)

/-- `validate_service_duration` (src/utils/validators.py:252); the argument is
the integer `int(duration)` already yields. -/
def validate_service_duration (duration : Int) : Bool × Option String :=
  if duration < 15 then (false, some "Минимальная длительность услуги 15 минут")
  else if 480 < duration then (false, some "Максимальная длительность услуги 8 часов")
  else (true, none)

/-- A call to a clock-free function performed at wall-clock time `now`: the
source of the wrapped validator never reads `datetime.now()`, so the call
discards the clock. -/
def atTime {α β : Type} (f : α → β) (_now : Nat) (x : α) : β := f x

/-- A cell of a database row as the sqlite driver hands it to the `from_db`
classmethods.  Timestamps travel as integer seconds (the `fromisoformat`
round-trip is the identity in this model), decimals as rationals. -/
inductive Val where
  | int (n : Int)
  | str (s : String)
  | rat (q : ℚ)
  | null
  deriving DecidableEq, Repr

/-- Read a cell as a nonnegative integer (ids and timestamps of this schema
are nonnegative); any other cell is a conversion error. -/
def Val.asNat : Val → Option Nat
  | .int n => if n < 0 then none else some n.toNat
  | _ => none

/-- Read a cell as a string. -/
def Val.asStr : Val → Option String
  | .str s => some s
  | _ => none

/-- Read a nullable text cell, as the `comment` column is read. -/
def Val.asOptStr : Val → Option (Option String)
  | .str s => some (some s)
  | .null => some none
  | _ => none

/-- `Appointment` (src/core/models.py:71): exactly the eight dataclass fields;
there is no `service_duration` or `service_price` field. -/
structure Appointment where
  id : Nat
  client_id : Nat
  service_id : Nat
  car_info : String
  appointment_time : Nat
  status : AppointmentStatus
  comment : Option String
  created_at : Nat
  deriving DecidableEq, Repr

/-- `Appointment.from_db` (src/core/models.py:83): builds the dataclass from
cells 0..7 of the row; any further cells of the row are never read.  `none`
models the exceptions a malformed row raises (IndexError / type errors /
`ValueError` from an unknown status). -/
def Appointment.from_db (row : List Val) : Option Appointment := do
  let id ← (← row[0]?).asNat
  let client_id ← (← row[1]?).asNat
  let service_id ← (← row[2]?).asNat
  let car_info ← (← row[3]?).asStr
  let appointment_time ← (← row[4]?).asNat
  let status ← parseStatus (← (← row[5]?).asStr)
  let comment ← (← row[6]?).asOptStr
  let created_at ← (← row[7]?).asNat
  some ⟨id, client_id, service_id, car_info, appointment_time, status, comment, created_at⟩

/-- Dynamic errors of the Python runtime that the embedding tracks. -/
inductive PyErr where
  | attributeError
  | typeError
  deriving DecidableEq, Repr

/-- The attribute read `apt.service_duration` on an `Appointment`: the
dataclass has no such field (its `from_db` discards the denormalized join
columns), so the read always raises `AttributeError`. -/
def Appointment.service_duration (_ : Appointment) : Except PyErr (Option Nat) :=
  .error .attributeError

/-- The attribute read `apt.service_price` on an `Appointment`, likewise
always an `AttributeError`. -/
def Appointment.service_price (_ : Appointment) : Except PyErr ℚ :=
  .error .attributeError

/-- `Service` (src/core/models.py:24). -/
structure Service where
  id : Nat
  name : String
  description : String
  price : ℚ
  duration : Nat
  is_active : Bool
  created_at : Nat
  updated_at : Nat
  deriving DecidableEq, Repr

/-- `Client` (src/core/models.py:51). -/
structure Client where
  id : Nat
  telegram_id : Int
  name : String
  phone : String
  created_at : Nat
  deriving DecidableEq, Repr

/-- A row of the `appointments` table (src/services/db/queries.py:116):
`status` is stored as plain TEXT. -/
structure AppointmentRow where
  id : Nat
  client_id : Nat
  service_id : Nat
  car_info : String
  appointment_time : Nat
  status : String
  comment : Option String
  created_at : Nat
  deriving DecidableEq, Repr

/-- A row of the `transactions` table (src/services/db/queries.py:223):
`appointment_id` is nullable, `type` is stored as plain TEXT. -/
structure TransactionRow where
  id : Nat
  appointment_id : Option Nat
  amount : ℚ
  type : String
  category : String
  description : String
  created_at : Nat
  deriving DecidableEq, Repr

/-- `Transaction` (src/core/models.py:99). -/
structure Transaction where
  id : Nat
  appointment_id : Option Nat
  amount : ℚ
  type : TransactionType
  category : String
  description : String
  created_at : Nat
  deriving DecidableEq, Repr

/-- `Transaction.from_db` (src/core/models.py:109) on a table row whose cells
are already typed: only the `TransactionType(row[3])` parse can fail. -/
def Transaction.from_db (t : TransactionRow) : Option Transaction :=
  (parseTransactionType t.type).map fun ty =>
    ⟨t.id, t.appointment_id, t.amount, ty, t.category, t.description, t.created_at⟩

/-- The persistent state of the `DatabaseManager`: the entity tables and the
next INTEGER PRIMARY KEY each table will assign. -/
structure Store where
  clients : List Client
  services : List Service
  appointments : List AppointmentRow
  transactions : List TransactionRow
  next_client_id : Nat
  next_appointment_id : Nat
  deriving DecidableEq, Repr

/-- `get_service` (src/services/db/database_manager.py:625): lookup of the
unique service with the given primary key. -/
def getService (st : Store) (sid : Nat) : Option Service :=
  st.services.find? (fun s => s.id == sid)

/-- The eight appointment cells every appointment SELECT of
src/services/db/queries.py returns first. -/
def appointmentCells (a : AppointmentRow) : List Val :=
  [.int a.id, .int a.client_id, .int a.service_id, .str a.car_info,
   .int a.appointment_time, .str a.status,
   (match a.comment with | some s => .str s | none => .null), .int a.created_at]

/-- A row of `AppointmentQueries.GET_BY_DATE_RANGE`
(src/services/db/queries.py:197): the eight appointment cells followed by the
joined `service_name`, `service_price`, `service_duration`. -/
def dateRangeRow (a : AppointmentRow) (s : Service) : List Val :=
  appointmentCells a ++ [.str s.name, .rat s.price, .int s.duration]

/-- `get_appointments_by_date` (src/services/db/database_manager.py:346): run
`GET_BY_DATE_RANGE` with both bounds on the same calendar date (an inner join
with `services`), then map `Appointment.from_db` over the rows; if any row
fails to convert, the method's `except` branch returns the empty list. -/
def get_appointments_by_date (st : Store) (date : Nat) : List Appointment :=
  let rows := (st.appointments.filter
      (fun a => dayOf a.appointment_time == dayOf date)).filterMap
    (fun a => (getService st a.service_id).map (dateRangeRow a))
  match rows.mapM Appointment.from_db with
  | some appts => appts
  | none => []

/-- `update_appointment_status` (src/services/db/database_manager.py:294):
validate the status string, then run the unconditional SQL
`UPDATE appointments SET status = ? WHERE id = ?` and report success.  The
source consults neither the current status nor whether the id exists. -/
def update_appointment_status (st : Store) (appointment_id : Nat)
    (status : String) : (Bool × Option String) × Store :=
  match validate_status status with
  | (false, err) => ((false, err), st)
  | _ =>
    let appointments := st.appointments.map fun a =>
      if a.id == appointment_id then { a with status := status } else a
    ((true, none), { st with appointments := appointments })

/-- `add_client` (src/services/db/database_manager.py:94): fail if a client
with the telegram id exists, else insert (no field validation happens here)
and read the row back by telegram id. -/
def add_client (st : Store) (telegram_id : Int) (name phone : String)
    (now : Nat) : (Bool × Option String × Option Client) × Store :=
  match st.clients.find? (fun c => c.telegram_id == telegram_id) with
  | some _ => ((false, some "Клиент уже существует", none), st)
  | none =>
    let newClient : Client := ⟨st.next_client_id, telegram_id, name, phone, now⟩
    let st' : Store := { st with clients := st.clients ++ [newClient],
                                 next_client_id := st.next_client_id + 1 }
    match st'.clients.find? (fun c => c.telegram_id == telegram_id) with
    | some row => ((true, none, some row), st')
    | none => ((false, some "Не удалось создать клиента", none), st')

/-- Python truthiness of an optional string, as in `if comment:` and
`if exclude_id and ...`: `None` and the empty string are falsy. -/
def pyTruthyStr : Option String → Bool
  | some s => !s.isEmpty
  | none => false

/-- The `service_id` resolution step of `add_appointment`
(src/services/db/database_manager.py:207): use the given id, else parse the
`service_type` string as an integer id (checked against the table), else look
the name up.  (Python `int(...)` also accepts signs and padding; the callers
only pass bare digit strings or names, which `String.toNat?` covers.) -/
def resolveServiceId (st : Store) (service_id : Option Nat)
    (service_type : Option String) : Except (Option String) Nat :=
  match service_id with
  | some sid => .ok sid
  | none =>
    match service_type with
    | none => .error (some "Не указана услуга")
    | some ty =>
      match ty.toNat? with
      | some sid =>
        if (st.services.find? (fun s => s.id == sid)).isSome then .ok sid
        else .error (some "Услуга (ID) не найдена")
      | none =>
        match st.services.find? (fun s => s.name == ty) with
        | some s => .ok s.id
        | none => .error (some "Услуга (name) не найдена")

/-- The conflict loop of `add_appointment`
(src/services/db/database_manager.py:239): skip cancelled appointments, read
`apt.service_duration` (which raises, see `Appointment.service_duration`),
with a dead fallback to re-fetching the service when that attribute were
`None`, then the half-open overlap test.  `ok true` means no conflict. -/
def conflictScan (st : Store) (appointment_time new_end_time : Nat) :
    List Appointment → Except PyErr Bool
  | [] => .ok true
  | apt :: rest =>
    if apt.status == .cancelled then
      conflictScan st appointment_time new_end_time rest
    else
      match apt.service_duration with
      | .error e => .error e
      | .ok durOpt =>
        let apt_duration :=
          match durOpt with
          | some d => d
          | none =>
            match getService st apt.service_id with
            | some s => s.duration
            | none => 0
        let apt_end_time := apt.appointment_time + apt_duration * 60
        if appointment_time < apt_end_time && new_end_time > apt.appointment_time then
          .ok false
        else conflictScan st appointment_time new_end_time rest

/-- The `try` body of `add_appointment`
(src/services/db/database_manager.py:205): resolve the service, run the
conflict loop, insert with status `pending`, read the new row back through
`GET_BY_ID` (the eight cells plus joined name and price). -/
def addAppointmentTry (st : Store) (client_id : Nat) (service_id : Option Nat)
    (service_type : Option String) (car_info : String)
    (appointment_time : Nat) (comment : Option String) (now : Nat) :
    Except PyErr ((Bool × Option String × Option Appointment) × Store) :=
  match resolveServiceId st service_id service_type with
  | .error err => .ok ((false, err, none), st)
  | .ok sid =>
    match getService st sid with
    | none => .ok ((false, some "Услуга не найдена", none), st)
    | some service =>
      let new_end_time := appointment_time + service.duration * 60
      match conflictScan st appointment_time new_end_time
          (get_appointments_by_date st appointment_time) with
      | .error e => .error e
      | .ok false =>
        .ok ((false, some "Выбранное время пересекается с другой записью", none), st)
      | .ok true =>
        let row : AppointmentRow :=
          ⟨st.next_appointment_id, client_id, sid, car_info, appointment_time,
           "pending", comment, now⟩
        let st' : Store := { st with appointments := st.appointments ++ [row],
                                     next_appointment_id := st.next_appointment_id + 1 }
        match (getService st' sid).bind
            (fun s => Appointment.from_db (appointmentCells row ++ [.str s.name, .rat s.price])) with
        | some appointment => .ok ((true, none, some appointment), st')
        | none => .ok ((false, some "Ошибка при создании записи", none), st')

/-- `add_appointment` (src/services/db/database_manager.py:181): the three
validation gates (`if comment:` skips the comment check for `None` and for
the empty string), then the `try` body, whose exceptions the blanket
`except` turns into the generic failure message. -/
def add_appointment (st : Store) (client_id : Nat) (service_id : Option Nat)
    (service_type : Option String) (car_info : String)
    (appointment_time : Nat) (comment : Option String) (now : Nat) :
    (Bool × Option String × Option Appointment) × Store :=
  match validate_car_info car_info with
  | (false, err) => ((false, err, none), st)
  | _ =>
    match validate_appointment_time now appointment_time with
    | (false, err) => ((false, err, none), st)
    | _ =>
      match (if pyTruthyStr comment then validate_comment comment else (true, none)) with
      | (false, err) => ((false, err, none), st)
      | _ =>
        match addAppointmentTry st client_id service_id service_type car_info
            appointment_time comment now with
        | .ok res => res
        | .error _ => ((false, some "Ошибка при добавлении записи", none), st)

/-- The dictionary `get_daily_stats` returns on success. -/
structure DailyStats where
  total : Nat
  completed : Nat
  cancelled : Nat
  conversion : ℚ
  income : ℚ
  expense : ℚ
  profit : ℚ
  deriving DecidableEq, Repr

/-- Python `round(q)` to an integer: nearest, ties to even. -/
def roundHalfEven (q : ℚ) : ℤ :=
  if q - ⌊q⌋ < 1/2 then ⌊q⌋
  else if 1/2 < q - ⌊q⌋ then ⌊q⌋ + 1
  else if ⌊q⌋ % 2 = 0 then ⌊q⌋ else ⌊q⌋ + 1

/-- Python `round(q, 2)`, modelled exactly on rationals (the source rounds a
binary float; the values the claims touch are exact either way). -/
def pyRound2 (q : ℚ) : ℚ := (roundHalfEven (q * 100) : ℚ) / 100

/-- `AnalyticsService.get_daily_stats` (src/services/analytics/analytics.py:28):
appointments of the date via `get_appointments_by_date`; transactions whose
`appointment_id` is in the set of ids of appointments on that date (the raw
SQL subquery, no join, so NULL links never match); counts, decimal sums and
the conversion percentage.  `none` models the `except` branch that returns
the empty dict (reached when a linked transaction row fails `from_db`). -/
def get_daily_stats (st : Store) (date : Nat) : Option DailyStats :=
  let appointments := get_appointments_by_date st date
  let dayIds := (st.appointments.filter
      (fun a => dayOf a.appointment_time == dayOf date)).map (·.id)
  let txRows := st.transactions.filter (fun t =>
    match t.appointment_id with
    | some aid => dayIds.contains aid
    | none => false)
  match txRows.mapM Transaction.from_db with
  | none => none
  | some transactions =>
    let total := appointments.length
    let completed := appointments.countP (fun a => a.status == .completed)
    let cancelled := appointments.countP (fun a => a.status == .cancelled)
    let income := ((transactions.filter (fun t => t.type == .income)).map (·.amount)).sum
    let expense := ((transactions.filter (fun t => t.type == .expense)).map (·.amount)).sum
    some { total := total, completed := completed, cancelled := cancelled,
           conversion := pyRound2 (if total ≠ 0 then (completed : ℚ) / total * 100 else 0),
           income := income, expense := expense, profit := income - expense }

/-- The loop of `validate_appointment_time_conflicts`
(src/utils/validators.py:302): skip the appointment whose id equals a truthy
`exclude_id` (Python truthiness: `None` and `0` are falsy), skip cancelled
ones, then read `apt.service_duration` — which raises — and apply the
half-open overlap test.  `ok (true, none)` means no conflict. -/
def conflictsLoop (appointment_time end_time : Nat) (exclude_id : Option Nat) :
    List Appointment → Except PyErr (Bool × Option String)
  | [] => .ok (true, none)
  | apt :: rest =>
    if (match exclude_id with
        | some e => e != 0 && apt.id == e
        | none => false) then
      conflictsLoop appointment_time end_time exclude_id rest
    else if apt.status == .cancelled then
      conflictsLoop appointment_time end_time exclude_id rest
    else
      match apt.service_duration with
      | .error e => .error e
      | .ok durOpt =>
        match durOpt with
        | none => .error .typeError
        | some d =>
          let apt_end_time := apt.appointment_time + d * 60
          if appointment_time < apt_end_time && end_time > apt.appointment_time then
            .ok (false, some "Выбранное время пересекается с другой записью")
          else conflictsLoop appointment_time end_time exclude_id rest

/-- `validate_appointment_time_conflicts` (src/utils/validators.py:275): fetch
the day's appointments and run the overlap loop; the coroutine has no `try`,
so the dynamic error propagates to the caller. -/
def validate_appointment_time_conflicts (st : Store) (appointment_time duration : Nat)
    (exclude_id : Option Nat) : Except PyErr (Bool × Option String) :=
  conflictsLoop appointment_time (appointment_time + duration * 60) exclude_id
    (get_appointments_by_date st appointment_time)

/-- The appointment data the spec's Conflict Resolver consumes: identity,
status, start time and the duration of its service in minutes. -/
structure SpecAppointment where
  id : Nat
  status : AppointmentStatus
  time : Nat
  duration : Nat
  deriving DecidableEq, Repr

/-- Modelled from the spec: the Conflict Resolver of spec §4.3.  The
repository transcribes this algorithm in `add_appointment` and in
`validate_appointment_time_conflicts`, but both read the `service_duration`
attribute that `Appointment.from_db` discards, so the intended algorithm is
reconstructed here from the spec's words: reject iff some same-calendar-date
appointment, not cancelled and not the optionally excluded id, satisfies
`candidate_time < other_end AND candidate_end > other_time`.  Returns `true`
iff the candidate is rejected as a conflict. -/
def conflictResolverSpec (appts : List SpecAppointment) (time duration : Nat)
    (excludeId : Option Nat) : Bool :=
  let candidateEnd := time + duration * 60
  (appts.filter (fun a => dayOf a.time == dayOf time)).any fun a =>
    !(match excludeId with | some e => a.id == e | none => false) &&
    a.status != .cancelled &&
    (decide (time < a.time + a.duration * 60) && decide (candidateEnd > a.time))

/-- The service of the repository's own test fixtures: price 1000, duration
60 minutes. -/
def service1 : Service := ⟨1, "Тест", "Описание тестовой услуги", 1000, 60, true, 0, 0⟩

/-- The client of the repository's own test fixtures. -/
def client1 : Client := ⟨1, 123456789, "Тест Тестов", "+79991234567", 0⟩

/-- A pending appointment for `service1` at 10:00 of day 1 (`122400 = 86400 +
10 * 3600` seconds): the first booking of spec Scenario 1. -/
def apt1 : AppointmentRow := ⟨1, 1, 1, "Toyota Camry", 122400, "pending", none, 0⟩

/-- A store holding `apt1`: the state in which Scenarios 2 and 3 book. -/
def st1 : Store := ⟨[client1], [service1], [apt1], [], 2, 2⟩

/-- A store with no appointments yet. -/
def stEmptyDay : Store := ⟨[client1], [service1], [], [], 2, 1⟩

/-- A store whose only appointment is in the terminal status `completed`. -/
def stCompleted : Store :=
  ⟨[client1], [service1], [⟨1, 1, 1, "Toyota Camry", 122400, "completed", none, 0⟩], [], 2, 2⟩

/-- The store of spec Scenario 5: one completed appointment on day 1 and one
linked income transaction of 1000. -/
def scenarioStore : Store :=
  ⟨[client1], [service1], [⟨1, 1, 1, "Toyota Camry", 122400, "completed", none, 0⟩],
   [⟨1, some 1, 1000, "income", "Услуги", "Оплата услуги", 0⟩], 2, 2⟩

/-- A freshly initialized, empty store. -/
def emptyStore : Store := ⟨[], [], [], [], 1, 1⟩

/-- The conflict loop of `add_appointment` raises `AttributeError` exactly
when the fetched day holds at least one non-cancelled appointment: the
`service_duration` read happens on the first appointment that is not
skipped. -/
theorem conflictScan_error_iff (st : Store) (t e : Nat) (l : List Appointment) :
    conflictScan st t e l = .error .attributeError ↔ ∃ a ∈ l, a.status ≠ .cancelled := by
  induction l with
  | nil => simp [conflictScan]
  | cons a rest ih =>
    by_cases h : a.status = AppointmentStatus.cancelled
    · simp [conflictScan, h, ih]
    · simp [conflictScan, h, Appointment.service_duration]

/-- **C1** (code bug).  The conflict-resolution algorithm the claim describes
is transcribed in `add_appointment` and `validate_appointment_time_conflicts`,
but both read `apt.service_duration`, an attribute `Appointment.from_db`
discards, so the read raises `AttributeError`: the loop errors whenever the
day holds any non-cancelled appointment (first conjunct).  Concretely, with
one pending 60-minute appointment at 10:00, the back-to-back candidate at
11:00 — accepted per the claim and spec Scenario 3 — gets the blanket
`except` failure with the generic message and no insert (second/third
conjuncts), and the overlapping candidate at 10:15 gets the same generic
message instead of the overlap message the repository's own test
`test_appointment_time_validation` asserts (fourth/fifth conjuncts); the
validators-module twin raises the error to its caller (last conjunct). -/
theorem C1_conflict_resolution_code_bug :
    (∀ (st : Store) (t e : Nat) (l : List Appointment),
      conflictScan st t e l = .error .attributeError ↔ ∃ a ∈ l, a.status ≠ .cancelled)
    ∧ add_appointment st1 1 (some 1) none "Toyota Camry" 126000 none 36000
        = ((false, some "Ошибка при добавлении записи", none), st1)
    ∧ conflictResolverSpec [⟨1, .pending, 122400, 60⟩] 126000 60 none = false
    ∧ add_appointment st1 1 (some 1) none "BMW X5" 123300 none 36000
        = ((false, some "Ошибка при добавлении записи", none), st1)
    ∧ conflictResolverSpec [⟨1, .pending, 122400, 60⟩] 123300 60 none = true
    ∧ validate_appointment_time_conflicts st1 126000 60 none = .error .attributeError := by
  refine ⟨conflictScan_error_iff, ?_, by decide, ?_, by decide, by rfl⟩
  · rfl
  · rfl

/-- **C2** (counterexample).  An appointment whose stored status is the
terminal `completed` is moved to `pending` by `update_appointment_status`
with a success result, not an `InvalidTransition` failure: the stored status
does change. -/
theorem C2_counterexample_terminal_overwritten :
    (update_appointment_status stCompleted 1 "pending").1 = (true, none)
    ∧ ((update_appointment_status stCompleted 1 "pending").2.appointments.map
        (fun a => a.status)) = ["pending"] := by
  decide

/-- **C2** (amended).  `update_appointment_status` enforces no state machine:
for any store and any valid target status string it reports success and
overwrites the status of every appointment with the given id, regardless of
the current status — including the terminal `completed`/`cancelled`. -/
theorem C2_amended_no_transition_check (st : Store) (id : Nat) (status : String)
    (h : parseStatus status ≠ none) :
    (update_appointment_status st id status).1 = (true, none)
    ∧ (update_appointment_status st id status).2.appointments
        = st.appointments.map
            (fun a => if a.id = id then { a with status := status } else a) := by
  unfold update_appointment_status validate_status
  cases hp : parseStatus status with
  | none => exact absurd hp h
  | some s =>
    refine ⟨rfl, ?_⟩
    apply List.map_congr_left
    intro a _
    by_cases ha : a.id = id <;> simp [ha]

/-- Witness for the amended C2 at the terminal-status store. -/
theorem C2_amended_witness :
    parseStatus "pending" ≠ none
    ∧ ((update_appointment_status stCompleted 1 "pending").1 = (true, none)
      ∧ (update_appointment_status stCompleted 1 "pending").2.appointments
          = stCompleted.appointments.map
              (fun a => if a.id = 1 then { a with status := "pending" } else a)) :=
  ⟨by decide, C2_amended_no_transition_check stCompleted 1 "pending" (by decide)⟩

/-- **C3** (counterexample).  `stEmptyDay` stores no appointment at all, yet
`update_appointment_status` for id 1 with the valid status `confirmed`
returns success (`(True, None)`), not an `AppointmentNotFound` failure; the
store is unchanged. -/
theorem C3_counterexample_missing_id_succeeds :
    update_appointment_status stEmptyDay 1 "confirmed" = ((true, none), stEmptyDay) := by
  decide

/-- **C3** (amended).  For an id that no stored appointment carries,
`update_appointment_status` with a valid target status is a silent no-op
reported as success: the SQL UPDATE matches zero rows, no
`AppointmentNotFound` is surfaced, and the store is unchanged. -/
theorem C3_amended_missing_id_noop (st : Store) (id : Nat) (status : String)
    (hv : parseStatus status ≠ none) (hid : ∀ a ∈ st.appointments, a.id ≠ id) :
    update_appointment_status st id status = ((true, none), st) := by
  unfold update_appointment_status validate_status
  cases hp : parseStatus status with
  | none => exact absurd hp hv
  | some s =>
    have hmap : st.appointments.map
        (fun a => if a.id == id then { a with status := status } else a)
        = st.appointments := by
      conv_rhs => rw [← List.map_id st.appointments]
      apply List.map_congr_left
      intro a ha
      simp [hid a ha]
    simp only [hmap]

/-- Witness for the amended C3 on a store holding one unrelated appointment. -/
theorem C3_amended_witness :
    parseStatus "confirmed" ≠ none
    ∧ (∀ a ∈ st1.appointments, a.id ≠ 5)
    ∧ update_appointment_status st1 5 "confirmed" = ((true, none), st1) :=
  ⟨by decide, by decide, C3_amended_missing_id_noop st1 5 "confirmed" (by decide) (by decide)⟩

/-- **C4** (confirmed).  `validate_appointment_time` succeeds exactly when the
candidate is strictly in the future, at least one hour and at most 90 days
from `now`, and its hour-of-day lies in the half-open working window
`[9, 20)`. -/
theorem C4_validate_appointment_time_iff (now t : Nat) :
    (validate_appointment_time now t).1 = true ↔
      now < t ∧ now + 3600 ≤ t ∧ t ≤ now + 90 * secondsPerDay
        ∧ 9 ≤ hourOf t ∧ hourOf t < 20 := by
  unfold validate_appointment_time hourOf secondsPerDay
  split_ifs with h1 h2 h3 h4 <;> first
  | (simp
     omega)
  | (simp at h4 ⊢
     omega)

/-- **C5** (counterexample).  The decimal `999.999` — mantissa 999999,
exponent −3, hence three fractional digits — is strictly positive, at most
1 000 000, and `validate_service_price` accepts it, although the claim
demands rejection of any price with more than two fractional digits. -/
theorem C5_counterexample_three_decimals_accepted :
    (validate_service_price (some ⟨999999, -3⟩)).1 = true
    ∧ 0 < Dec.val ⟨999999, -3⟩
    ∧ Dec.val ⟨999999, -3⟩ ≤ 1000000
    ∧ 2 < |(-3 : Int)| := by
  refine ⟨by norm_num [validate_service_price, Dec.val], ?_, ?_, by decide⟩ <;>
    norm_num [Dec.val]

/-- **C5** (amended).  `validate_service_price` accepts a price string iff it
parses as a finite decimal whose value `v` satisfies `0 < v ≤ 1 000 000`; the
number of fractional digits is not restricted (only `validate_amount`, used
for transactions, checks it). -/
theorem C5_amended_price_iff (d : Option Dec) :
    (validate_service_price d).1 = true
      ↔ ∃ x, d = some x ∧ 0 < x.val ∧ x.val ≤ 1000000 := by
  cases d with
  | none => simp [validate_service_price]
  | some x =>
    simp only [validate_service_price]
    split_ifs with h1 h2
    · simp
      intro h
      linarith
    · simp
      intro h
      linarith
    · push_neg at h1 h2
      simp
      exact ⟨h1, h2⟩

/-- **C6** (counterexample).  On the empty store, `add_client` with the
one-word name `"X"` and the malformed phone `"abc"` succeeds and persists the
client verbatim, although both `validate_name` and `validate_phone` reject
these values: `add_client` performs no field validation. -/
theorem C6_counterexample_no_validation :
    (add_client emptyStore 1 "X" "abc" 0).1.1 = true
    ∧ (validate_name "X").1 = false
    ∧ (validate_phone "abc").1 = false
    ∧ (add_client emptyStore 1 "X" "abc" 0).2.clients = [⟨1, 1, "X", "abc", 0⟩] := by
  decide

/-- **C6** (amended).  `add_client` fails with the duplicate-client error and
leaves the store unchanged when a client with the external chat identifier
exists; otherwise it inserts the given fields verbatim — without validating
name or phone — and returns the newly persisted client. -/
theorem C6_amended_add_client (st : Store) (tid : Int) (name phone : String)
    (now : Nat) :
    ((∃ c ∈ st.clients, c.telegram_id = tid) →
      add_client st tid name phone now = ((false, some "Клиент уже существует", none), st))
    ∧ ((∀ c ∈ st.clients, c.telegram_id ≠ tid) →
      (add_client st tid name phone now).1
          = (true, none, some ⟨st.next_client_id, tid, name, phone, now⟩)
        ∧ (add_client st tid name phone now).2.clients
          = st.clients ++ [⟨st.next_client_id, tid, name, phone, now⟩]) := by
  constructor
  · rintro ⟨c, hc, htid⟩
    have hs : (st.clients.find? (fun c => c.telegram_id == tid)).isSome := by
      rw [List.find?_isSome]
      exact ⟨c, hc, by simp [htid]⟩
    unfold add_client
    cases hf : st.clients.find? (fun c => c.telegram_id == tid) with
    | none => rw [hf] at hs; simp at hs
    | some _ => rfl
  · intro hnone
    have hf : st.clients.find? (fun c => c.telegram_id == tid) = none := by
      rw [List.find?_eq_none]
      intro c hc
      simp [hnone c hc]
    unfold add_client
    rw [hf]
    dsimp only
    rw [List.find?_append, hf]
    simp

/-- Witness for the amended C6 on the empty store. -/
theorem C6_amended_witness :
    (∀ c ∈ emptyStore.clients, c.telegram_id ≠ 1)
    ∧ ((add_client emptyStore 1 "X" "abc" 0).1
          = (true, none, some ⟨emptyStore.next_client_id, 1, "X", "abc", 0⟩)
      ∧ (add_client emptyStore 1 "X" "abc" 0).2.clients
          = emptyStore.clients ++ [⟨emptyStore.next_client_id, 1, "X", "abc", 0⟩]) :=
  ⟨by simp [emptyStore], (C6_amended_add_client emptyStore 1 "X" "abc" 0).2
    (by simp [emptyStore])⟩

/-- **C8** (counterexample).  `validate_appointment_time` is not a pure
function of its argument alone: the same candidate time `36000` (10:00 of
day 0) is accepted when the clock reads `28800` (08:00) and rejected when the
clock reads `40000` (11:06:40), so two calls on the same input at two times
disagree. -/
theorem C8_counterexample_clock_dependence :
    (validate_appointment_time 28800 36000).1 = true
    ∧ (validate_appointment_time 40000 36000).1 = false
    ∧ validate_appointment_time 28800 36000 ≠ validate_appointment_time 40000 36000 := by
  decide

/-- **C8** (amended).  Every §4.1 validator except `validate_appointment_time`
is a pure function of its argument: a call at one wall-clock time equals the
call at any other time, because the source never reads the clock;
`validate_appointment_time` is pure only in the pair (clock, argument). -/
theorem C8_amended_validators_clock_free (n₁ n₂ : Nat) :
    atTime validate_phone n₁ = atTime validate_phone n₂
    ∧ atTime validate_name n₁ = atTime validate_name n₂
    ∧ atTime validate_car_info n₁ = atTime validate_car_info n₂
    ∧ atTime validate_amount n₁ = atTime validate_amount n₂
    ∧ atTime validate_comment n₁ = atTime validate_comment n₂
    ∧ atTime validate_status n₁ = atTime validate_status n₂
    ∧ atTime validate_transaction_type n₁ = atTime validate_transaction_type n₂
    ∧ atTime validate_category n₁ = atTime validate_category n₂
    ∧ atTime validate_service_name n₁ = atTime validate_service_name n₂
    ∧ atTime validate_service_description n₁ = atTime validate_service_description n₂
    ∧ atTime validate_service_price n₁ = atTime validate_service_price n₂
    ∧ atTime validate_service_duration n₁ = atTime validate_service_duration n₂ :=
  ⟨rfl, rfl, rfl, rfl, rfl, rfl, rfl, rfl, rfl, rfl, rfl, rfl⟩

/-- **C9** (confirmed).  `Appointment.from_db` reads only the first eight
cells of a row: appending any denormalized tail (such as the
`service_name`, `service_price`, `service_duration` columns of
`GET_BY_DATE_RANGE`) never changes the constructed object, and the
`service_duration` / `service_price` attribute reads that the conflict loop
and the analytics aggregator perform on such an object raise
`AttributeError`. -/
theorem C9_from_db_discards_denormalized (base extra₁ extra₂ : List Val)
    (h : base.length = 8) :
    Appointment.from_db (base ++ extra₁) = Appointment.from_db (base ++ extra₂)
    ∧ ∀ apt : Appointment,
        apt.service_duration = Except.error PyErr.attributeError
        ∧ apt.service_price = Except.error PyErr.attributeError := by
  refine ⟨?_, fun apt => ⟨rfl, rfl⟩⟩
  unfold Appointment.from_db
  simp (disch := omega) only [List.getElem?_append_left]

/-- Witness for C9 at a concrete joined row of `GET_BY_DATE_RANGE`. -/
theorem C9_witness :
    ([Val.int 1, Val.int 1, Val.int 1, Val.str "Toyota Camry", Val.int 122400,
      Val.str "pending", Val.null, Val.int 0] : List Val).length = 8
    ∧ (Appointment.from_db ([Val.int 1, Val.int 1, Val.int 1, Val.str "Toyota Camry",
          Val.int 122400, Val.str "pending", Val.null, Val.int 0]
          ++ [Val.str "Тест", Val.rat 1000, Val.int 60])
        = Appointment.from_db ([Val.int 1, Val.int 1, Val.int 1, Val.str "Toyota Camry",
          Val.int 122400, Val.str "pending", Val.null, Val.int 0] ++ [])
      ∧ ∀ apt : Appointment,
          apt.service_duration = Except.error PyErr.attributeError
          ∧ apt.service_price = Except.error PyErr.attributeError) :=
  ⟨by decide, C9_from_db_discards_denormalized
    [Val.int 1, Val.int 1, Val.int 1, Val.str "Toyota Camry", Val.int 122400,
     Val.str "pending", Val.null, Val.int 0]
    [Val.str "Тест", Val.rat 1000, Val.int 60] [] (by decide)⟩

/-- **C10** (confirmed).  A non-`None` comment that is empty or whitespace-only
is rejected by `validate_comment` (after stripping, the character-class
pattern needs at least one character), `None` is accepted, and
`add_appointment`'s gate `if comment:` skips validation for `None` and for
the empty string — so an empty-string comment passes through
`add_appointment` unvalidated (the concrete booking with comment `""`
succeeds even though `validate_comment` rejects `""`). -/
theorem C10_empty_comment (s : String) (hs : s.data.all isPySpace = true) :
    (validate_comment (some s)).1 = false
    ∧ (validate_comment none).1 = true
    ∧ (validate_comment (some "")).1 = false
    ∧ (if pyTruthyStr (some "") then validate_comment (some "") else (true, none))
        = (true, none)
    ∧ (add_appointment stEmptyDay 1 (some 1) none "Toyota Camry" 126000 (some "")
        36000).1.1 = true := by
  refine ⟨?_, rfl, by decide, by decide, by rfl⟩
  have hstrip : pyStrip s = "" := by
    have h1 : s.data.dropWhile isPySpace = [] := by
      rw [List.dropWhile_eq_nil_iff]
      intro x hx
      exact List.all_eq_true.mp hs x hx
    simp [pyStrip, h1]
  simp [validate_comment, hstrip, regexClassMatch]

/-- Witness for C10 at a whitespace-only comment. -/
theorem C10_witness :
    ("  ".data.all isPySpace = true) ∧ (validate_comment (some "  ")).1 = false :=
  ⟨by decide, (C10_empty_comment "  " (by decide)).1⟩

/-- The `TransactionType` parse succeeds with `income` exactly on the string
the enum stores. -/
theorem parseTransactionType_income_iff (s : String) :
    parseTransactionType s = some TransactionType.income ↔ s = "income" := by
  unfold parseTransactionType
  split <;> simp_all

/-- The `TransactionType` parse succeeds with `expense` exactly on the string
the enum stores. -/
theorem parseTransactionType_expense_iff (s : String) :
    parseTransactionType s = some TransactionType.expense ↔ s = "expense" := by
  unfold parseTransactionType
  split <;> simp_all

/-- `Transaction.from_db` preserves the amount and types the stored string. -/
theorem from_db_type_amount (r : TransactionRow) (t : Transaction)
    (h : Transaction.from_db r = some t) :
    parseTransactionType r.type = some t.type ∧ t.amount = r.amount := by
  unfold Transaction.from_db at h
  cases hp : parseTransactionType r.type with
  | none => rw [hp] at h; simp at h
  | some ty =>
    rw [hp] at h
    simp only [Option.map_some', Option.some.injEq] at h
    subst h
    exact ⟨rfl, rfl⟩

/-- Converting the fetched rows through `Transaction.from_db` preserves the
per-type amount sums: the typed filter on the result equals the stored-string
filter on the rows. -/
theorem mapM_from_db_sums (rows : List TransactionRow) (l : List Transaction)
    (hm : rows.mapM Transaction.from_db = some l) :
    ((l.filter (fun t => t.type == TransactionType.income)).map (fun t => t.amount)).sum
        = ((rows.filter (fun r => r.type == "income")).map (fun r => r.amount)).sum
    ∧ ((l.filter (fun t => t.type == TransactionType.expense)).map (fun t => t.amount)).sum
        = ((rows.filter (fun r => r.type == "expense")).map (fun r => r.amount)).sum := by
  induction rows generalizing l with
  | nil =>
    simp only [List.mapM_nil, pure, Option.some.injEq] at hm
    subst hm
    simp
  | cons r rest ih =>
    rw [List.mapM_cons] at hm
    cases hfb : Transaction.from_db r with
    | none => rw [hfb] at hm; simp at hm
    | some t =>
      rw [hfb] at hm
      cases hrest : rest.mapM Transaction.from_db with
      | none => rw [hrest] at hm; simp at hm
      | some ts =>
        rw [hrest] at hm
        simp only [Option.bind_eq_bind, Option.some_bind, Option.pure_def, Option.some.injEq] at hm
        subst hm
        obtain ⟨ih1, ih2⟩ := ih ts hrest
        obtain ⟨hty, hamt⟩ := from_db_type_amount r t hfb
        cases htt : t.type with
        | income =>
          have hr : r.type = "income" :=
            (parseTransactionType_income_iff r.type).mp (htt ▸ hty)
          simp [List.filter_cons, htt, hr, hamt, ih1, ih2]
        | expense =>
          have hr : r.type = "expense" :=
            (parseTransactionType_expense_iff r.type).mp (htt ▸ hty)
          simp [List.filter_cons, htt, hr, hamt, ih1, ih2]

/-- The raw-SQL link filter of `get_daily_stats` — membership of the
transaction's `appointment_id` in the ids of that day's appointments — is
the predicate "linked to some appointment of that calendar date". -/
theorem linked_filter_eq (st : Store) (date : Nat) :
    st.transactions.filter (fun t =>
        match t.appointment_id with
        | some aid => ((st.appointments.filter
            (fun a => dayOf a.appointment_time == dayOf date)).map (fun a => a.id)).contains aid
        | none => false)
      = st.transactions.filter (fun t =>
          decide (∃ a ∈ st.appointments,
            dayOf a.appointment_time = dayOf date ∧ t.appointment_id = some a.id)) := by
  apply List.filter_congr
  intro t _
  cases haid : t.appointment_id with
  | none => simp
  | some aid =>
    rw [Bool.eq_iff_iff]
    simp [List.mem_map, List.mem_filter]
    constructor
    · rintro ⟨a, ⟨ha, hday⟩, hid⟩
      exact ⟨a, ha, hday, hid.symm⟩
    · rintro ⟨a, ha, hday, hid⟩
      exact ⟨a, ⟨ha, hday⟩, hid.symm⟩

/-- Python's `round(0, 2)` is 0. -/
theorem pyRound2_zero : pyRound2 0 = 0 := by
  norm_num [pyRound2, roundHalfEven]

/-- **C7** (confirmed).  `get_daily_stats` counts exactly the appointments of
the requested calendar date (total/completed/cancelled), computes the
conversion as `completed / total * 100` rounded to two decimals (0 when the
day has no appointments), and sums income/expense/profit over exactly the
transactions linked by `appointment_id` to that date's appointments; on the
Scenario-5 store — one completed appointment and one linked income
transaction of 1000 — it yields conversion 100, income 1000, profit 1000. -/
theorem C7_daily_stats :
    (∀ (st : Store) (date : Nat) (stats : DailyStats),
      get_daily_stats st date = some stats →
        stats.total = (get_appointments_by_date st date).length
        ∧ stats.completed = ((get_appointments_by_date st date).filter
            (fun a => a.status == AppointmentStatus.completed)).length
        ∧ stats.cancelled = ((get_appointments_by_date st date).filter
            (fun a => a.status == AppointmentStatus.cancelled)).length
        ∧ stats.conversion = (if stats.total = 0 then 0
            else pyRound2 ((stats.completed : ℚ) / (stats.total : ℚ) * 100))
        ∧ stats.income = (((st.transactions.filter (fun t =>
              decide (∃ a ∈ st.appointments, dayOf a.appointment_time = dayOf date
                ∧ t.appointment_id = some a.id))).filter
            (fun r => r.type == "income")).map (fun r => r.amount)).sum
        ∧ stats.expense = (((st.transactions.filter (fun t =>
              decide (∃ a ∈ st.appointments, dayOf a.appointment_time = dayOf date
                ∧ t.appointment_id = some a.id))).filter
            (fun r => r.type == "expense")).map (fun r => r.amount)).sum
        ∧ stats.profit = stats.income - stats.expense)
    ∧ get_daily_stats scenarioStore 122400 = some ⟨1, 1, 0, 100, 1000, 0, 1000⟩ := by
  constructor
  · intro st date stats h
    unfold get_daily_stats at h
    dsimp only at h
    cases htx : (st.transactions.filter (fun t =>
        match t.appointment_id with
        | some aid => ((st.appointments.filter
            (fun a => dayOf a.appointment_time == dayOf date)).map (fun a => a.id)).contains aid
        | none => false)).mapM Transaction.from_db with
    | none => rw [htx] at h; exact absurd h (by simp)
    | some transactions =>
      rw [htx] at h
      simp only [Option.some.injEq] at h
      subst h
      obtain ⟨hsum1, hsum2⟩ := mapM_from_db_sums _ transactions htx
      refine ⟨rfl, List.countP_eq_length_filter _ _, List.countP_eq_length_filter _ _,
        ?_, ?_, ?_, rfl⟩
      · by_cases ht : (get_appointments_by_date st date).length = 0 <;>
          simp [ht, pyRound2_zero, List.countP_eq_length_filter]
      · rw [← linked_filter_eq]
        exact hsum1
      · rw [← linked_filter_eq]
        exact hsum2
  · have h1 : get_appointments_by_date scenarioStore 122400
        = [⟨1, 1, 1, "Toyota Camry", 122400, AppointmentStatus.completed, none, 0⟩] := by
      rfl
    have h2 : (scenarioStore.transactions.filter (fun t =>
        match t.appointment_id with
        | some aid => ((scenarioStore.appointments.filter
            (fun a => dayOf a.appointment_time == dayOf 122400)).map (fun a => a.id)).contains aid
        | none => false)).mapM Transaction.from_db
        = some [⟨1, some 1, 1000, TransactionType.income, "Услуги", "Оплата услуги", 0⟩] := by
      rfl
    unfold get_daily_stats
    dsimp only
    rw [h2]
    dsimp only
    rw [h1]
    norm_num [pyRound2, roundHalfEven]
    exact ⟨by decide, by simp [List.filter_cons]⟩

/-- Witness for C7 at the Scenario-5 store. -/
theorem C7_witness :
    get_daily_stats scenarioStore 122400 = some ⟨1, 1, 0, 100, 1000, 0, 1000⟩
    ∧ (1 : Nat) = (get_appointments_by_date scenarioStore 122400).length :=
  ⟨C7_daily_stats.2, (C7_daily_stats.1 scenarioStore 122400 ⟨1, 1, 0, 100, 1000, 0, 1000⟩
    C7_daily_stats.2).1⟩

end DetailingBot
